import Mathlib

/-!
Verification of the tradingecoscraper repository: a shallow embedding of its
fetch client (robots.txt checking, rate limiting, retry with backoff), its
numeric normalizers, row-field extraction heuristics, row-locating strategy
chains, and its record validators, with theorems settling the spec's claims.

Raw cell text is modelled as `List Char`; Python floats are modelled as `ℚ`
(every numeric literal the scraper handles is an exact decimal, and the one
tolerance comparison, 0.01, is orders of magnitude above any float rounding).
-/

namespace TES

/-- Text, as the Python code sees it: a sequence of characters. -/
abbrev Str := List Char

/-- Shorthand to write character-list literals. -/
def lit (s : String) : Str := s.toList

/-- The whitespace characters `str.strip()` removes (ASCII subset, which is
all the scraper's inputs contain). -/
def pyIsSpace (c : Char) : Bool :=
  c = ' ' ∨ c = '\t' ∨ c = '\n' ∨ c = '\r' ∨ c = Char.ofNat 11 ∨ c = Char.ofNat 12

/-- Python `str.strip()`. -/
def pyStrip (s : Str) : Str :=
  ((s.dropWhile pyIsSpace).reverse.dropWhile pyIsSpace).reverse

/-- Python `str.replace(old, new)` for a one-character `old`. -/
def pyReplace (old : Char) (new : Str) (s : Str) : Str :=
  s.flatMap (fun c => if c = old then new else [c])

/-- Python `str.lower()` (ASCII letters, which is all the scraper compares). -/
def pyLowerChar (c : Char) : Char :=
  if 'A' ≤ c ∧ c ≤ 'Z' then Char.ofNat (c.toNat + 32) else c

/-- Python `str.lower()` on a whole string. -/
def pyLower (s : Str) : Str := s.map pyLowerChar

/-- Python `str.upper()` (ASCII letters). -/
def pyUpperChar (c : Char) : Char :=
  if 'a' ≤ c ∧ c ≤ 'z' then Char.ofNat (c.toNat - 32) else c

/-- Python `str.upper()` on a whole string. -/
def pyUpper (s : Str) : Str := s.map pyUpperChar

/-- Numeric value of a digit string (most significant first). -/
def digitsVal (s : Str) : ℕ :=
  s.foldl (fun a c => 10 * a + (c.toNat - '0'.toNat)) 0

/-- The unsigned decimal forms Python `float()` accepts on the scraper's
inputs: `digits`, `digits.digits`, `.digits`, `digits.`. -/
def parseFloatCore (s : Str) : Option ℚ :=
  let intPart := s.takeWhile Char.isDigit
  let rest := s.dropWhile Char.isDigit
  match rest with
  | [] => if intPart.isEmpty then none else some (digitsVal intPart : ℚ)
  | '.' :: frac =>
      if frac.all Char.isDigit ∧ (intPart ≠ [] ∨ frac ≠ []) then
        some ((digitsVal intPart : ℚ) + (digitsVal frac : ℚ) / (10 : ℚ) ^ frac.length)
      else none
  | _ => none

/-- Python `float(s)`: optional surrounding whitespace, optional sign, then a
decimal literal; `none` models the `ValueError` the callers catch. -/
def pyFloat (s : Str) : Option ℚ :=
  match pyStrip s with
  | '+' :: rest => parseFloatCore rest
  | '-' :: rest => (parseFloatCore rest).map (fun q => -q)
  | t => parseFloatCore t

/-- `_parse_percentage` from src/parsers/markets.py (lines 16-27): strips
`%`, maps unicode minus and en-dash to `-`, drops `+`, negates a
parenthesized value, then converts. -/
def mkParsePercentage (value : Str) : Option ℚ :=
  if value.isEmpty ∨ (pyStrip value).isEmpty then none
  else
    let cleaned := pyReplace '–' (lit "-") (pyReplace '−' (lit "-")
      (pyReplace '%' [] (pyStrip value)))
    let cleaned := pyStrip (pyReplace '+' [] cleaned)
    let cleaned :=
      if cleaned.head? = some '(' ∧ cleaned.getLast? = some ')' then
        '-' :: (cleaned.drop 1).dropLast
      else cleaned
    pyFloat cleaned

/-- `_parse_price` from src/parsers/markets.py (lines 31-41): strips currency
symbols, commas and spaces, then converts. -/
def mkParsePrice (value : Str) : Option ℚ :=
  if value.isEmpty ∨ (pyStrip value).isEmpty then none
  else
    let cleaned := pyReplace '£' [] (pyReplace '€' [] (pyReplace '$' [] (pyStrip value)))
    let cleaned := pyReplace ' ' [] (pyReplace ',' [] cleaned)
    pyFloat cleaned

/-- The character list `_parse_number` in src/parsers/macro.py removes
(line 77; `−` U+2212 appears twice there, as in the source). -/
def mcNumberStripChars : Str := ['$', '€', '£', '¥', '%', '−', '–', '−', '(', ')', ',']

/-- The placeholder tokens `_parse_number` maps to `None` (line 81). -/
def mcPlaceholders : List Str :=
  [lit "n/a", lit "na", lit "n.a.", lit "-", lit "...", []]

/-- `_parse_number` from src/parsers/macro.py (lines 70-85): removes the
characters of `mcNumberStripChars` (note: it removes the unicode minus and
the parentheses instead of negating), removes spaces, maps placeholder
tokens to `None`, then converts. -/
def mcParseNumber (value : Str) : Option ℚ :=
  if value.isEmpty ∨ (pyStrip value).isEmpty then none
  else
    let cleaned := mcNumberStripChars.foldl (fun s c => pyReplace c [] s) (pyStrip value)
    let cleaned := pyReplace ' ' [] cleaned
    if mcPlaceholders.contains (pyLower cleaned) then none
    else pyFloat cleaned

/-- `_parse_percentage` from src/parsers/etfs.py (lines 25-33). -/
def etfParsePercentage (value : Str) : Option ℚ :=
  if value.isEmpty ∨ (pyStrip value).isEmpty then none
  else
    pyFloat (pyReplace '–' (lit "-") (pyReplace '−' (lit "-")
      (pyReplace '%' [] (pyStrip value))))

/-- `_parse_percentage` from src/parsers/derivatives.py (lines 41-49). -/
def dvParsePercentage (value : Str) : Option ℚ :=
  if value.isEmpty ∨ (pyStrip value).isEmpty then none
  else
    pyFloat (pyReplace '+' [] (pyReplace '–' (lit "-") (pyReplace '−' (lit "-")
      (pyReplace '%' [] (pyStrip value)))))

/-- `_parse_change` from src/parsers/derivatives.py (lines 30-38). -/
def dvParseChange (value : Str) : Option ℚ :=
  if value.isEmpty ∨ (pyStrip value).isEmpty then none
  else
    pyFloat (pyReplace '–' (lit "-") (pyReplace '−' (lit "-")
      (pyReplace '+' [] (pyStrip value))))

/-! ## Row-field extraction: the percent-change assignment loops -/

/-- One iteration of the change/percent-change loop of `parse_forex`
(src/parsers/markets.py lines 258-261): every cell is fed to
`_parse_percentage` and each successful parse overwrites `pct_change`. -/
def forexStep (acc : Option ℚ) (c : Str) : Option ℚ :=
  match mkParsePercentage c with
  | some p => some p
  | none => acc

/-- The change/percent-change loop of `parse_forex` (src/parsers/markets.py
lines 256-261), over the row's cell texts (the `change` variable is never
assigned there and stays `None`). -/
def forexPctChange (cells : List Str) : Option ℚ :=
  cells.foldl forexStep none

/-- One iteration of the loop of `parse_derivatives`
(src/parsers/derivatives.py lines 159-171): a `%`-bearing cell updates
`pct_change`; a non-empty cell with neither `$` nor `%` whose parsed
magnitude is below 1000 updates `change`. `acc` = (change, pct_change). -/
def dvStep (acc : Option ℚ × Option ℚ) (c : Str) : Option ℚ × Option ℚ :=
  if c.contains '%' then
    match dvParsePercentage c with
    | some p => (acc.1, some p)
    | none => acc
  else if c ≠ [] ∧ ¬ c.contains '$' ∧ ¬ c.contains '%' then
    match dvParseChange c with
    | some v => if |v| < 1000 then (some v, acc.2) else acc
    | none => acc
  else acc

/-- The change/percent-change loop of `parse_derivatives`
(src/parsers/derivatives.py lines 156-171), over the row's cell texts from
index 3 on. Result: (change, pct_change). -/
def dvChangePct (cells : List Str) : Option ℚ × Option ℚ :=
  (cells.drop 3).foldl dvStep (none, none)

/-- One iteration of the loop of `parse_etfs` (src/parsers/etfs.py lines
123-134), for a row of `n` cells: a cell whose text parses with
`_parse_percentage` updates `pct_change` when it sits at the last or
second-to-last index, else updates `change` when its magnitude is below
50. `acc` = (change, pct_change). -/
def etfStep (n : ℕ) (acc : Option ℚ × Option ℚ) (ic : ℕ × Str) : Option ℚ × Option ℚ :=
  match etfParsePercentage ic.2 with
  | none => acc
  | some p =>
    if ic.1 = n - 1 then (acc.1, some p)
    else if ic.1 = n - 2 then (acc.1, some p)
    else if |p| < 50 then (some p, acc.2)
    else acc

/-- The change/percent-change loop of `parse_etfs` (src/parsers/etfs.py
lines 118-134), over `enumerate(cells[3:], start=3)`. Result:
(change, pct_change). -/
def etfChangePct (cells : List Str) : Option ℚ × Option ℚ :=
  (List.enumFrom 3 (cells.drop 3)).foldl (etfStep cells.length) (none, none)

/-- The value produced by the last element of `l` on which `f` succeeds. -/
def lastSome? (f : α → Option β) (l : List α) : Option β :=
  l.reverse.findSome? f

/-! ## The retrying fetcher -/

/-- What one GET attempt yields: an HTTP status, or a network-level error
(`httpx.RequestError`). -/
inductive AttemptOutcome where
  | status (code : ℕ)
  | netError

/-- The `RequestError` outcomes `_request_with_retry` raises, split by the
message it formats. -/
inductive ReqErr where
  | retriesExhausted
  | httpError (code : ℕ)
  | netRetriesExhausted
deriving DecidableEq

/-- The observable behaviour of one `_request_with_retry` call tree:
its outcome (`.ok k` = the response body of attempt `k` is returned), the
attempt indices at which a GET was issued, and the backoff sleeps taken
between attempts. -/
structure ReqResult where
  result : Except ReqErr ℕ
  requests : List ℕ
  sleeps : List ℚ

/-- `RETRY_CONFIG["max_retries"]` from src/config.py line 8. -/
def maxRetries : ℕ := 3

/-- `RETRY_CONFIG["backoff_factor"]` from src/config.py line 9. -/
def backoffFactor : ℚ := 1/2

/-- `ScrapingClient._request_with_retry` from src/scraper.py lines 212-242:
`raise_for_status` raises for statuses in [400, 600); a 5xx retries with
backoff `backoff_factor * 2 ** attempt` while `attempt < max_retries`, then
fails with the retries-exhausted error; another error status fails
immediately; a network error retries on the same schedule. -/
def requestWithRetry (resp : ℕ → AttemptOutcome) (attempt : ℕ) : ReqResult :=
  match resp attempt with
  | .status code =>
    if 400 ≤ code ∧ code < 600 then
      if 500 ≤ code then
        if attempt < maxRetries then
          let r := requestWithRetry resp (attempt + 1)
          ⟨r.result, attempt :: r.requests, backoffFactor * 2 ^ attempt :: r.sleeps⟩
        else ⟨.error .retriesExhausted, [attempt], []⟩
      else ⟨.error (.httpError code), [attempt], []⟩
    else ⟨.ok attempt, [attempt], []⟩
  | .netError =>
    if attempt < maxRetries then
      let r := requestWithRetry resp (attempt + 1)
      ⟨r.result, attempt :: r.requests, backoffFactor * 2 ^ attempt :: r.sleeps⟩
    else ⟨.error .netRetriesExhausted, [attempt], []⟩
termination_by maxRetries + 1 - attempt
decreasing_by all_goals simp_wf; omega

/-! ## Robots.txt policy and the scrape pipeline -/

/-- The `RobotsTxt` dataclass from src/scraper.py lines 45-52 (the cached
timestamps play no role in the allow-check and are omitted). The sets are
modelled as lists; only membership is ever used. -/
structure RobotsTxt where
  allowed : List Str
  disallowed : List Str
  crawlDelay : Option ℚ

/-- `RobotsTxt.is_allowed` from src/scraper.py lines 54-60: scan the
disallowed entries and return `False` on the first prefix match; the
`allowed` set is never read. -/
def robotsIsAllowed (r : RobotsTxt) (path : Str) : Bool :=
  !(r.disallowed.any (fun d => d.isPrefixOf path))

/-- The error outcomes of `ScrapingClient.scrape`. -/
inductive ScrapeErr where
  | robotsBlocked
  | request (e : ReqErr)
deriving DecidableEq

/-- `ScrapingClient.scrape` from src/scraper.py lines 244-261, for a target
path whose robots policy is already cached: `_check_robots_txt` raises
`RobotsTxtError` before the rate-limit wait and before any GET to the path;
otherwise the retrying request runs. The second component lists the attempt
indices at which a GET was issued to the path. -/
def scrapePipeline (robots : RobotsTxt) (path : Str) (resp : ℕ → AttemptOutcome) :
    Except ScrapeErr ℕ × List ℕ :=
  if robotsIsAllowed robots path = false then (.error .robotsBlocked, [])
  else
    let r := requestWithRetry resp 0
    (r.result.mapError .request, r.requests)

/-! ## The rate limiter -/

/-- `RATE_LIMIT_DELAY` from src/config.py line 14. -/
def RATE_LIMIT_DELAY : ℚ := 5

/-- The check-then-sleep step of `RateLimiter.wait` (src/scraper.py lines
174-179) for one host: called at time `now` with recorded timestamp `last`,
it returns the time at which the caller wakes and proceeds (sleeping
`RATE_LIMIT_DELAY - elapsed` when `elapsed < RATE_LIMIT_DELAY`). The
timestamp write `_last_request[host] = time.time()` happens at that wake
time, after the `await asyncio.sleep` suspension point. -/
def waitWake (last now : ℚ) : ℚ :=
  if now - last < RATE_LIMIT_DELAY then last + RATE_LIMIT_DELAY else now

/-- Interleaving events for two `RateLimiter.wait` calls A and B on the same
host: each call is its read-check step (which computes its wake time from
the currently recorded timestamp) followed, after the sleep suspension, by
its write-and-proceed step. -/
inductive RLEv where
  | checkA
  | checkB
  | wakeA
  | wakeB

/-- State shared by the two callers: the host's recorded timestamp, each
call's pending wake time, and the time each call's request is issued. -/
structure RLState where
  last : ℚ
  pendA : Option ℚ := none
  pendB : Option ℚ := none
  reqA : Option ℚ := none
  reqB : Option ℚ := none

/-- One interleaving step: a check reads `last` and computes the wake time;
a wake writes the timestamp and issues the request, as `RateLimiter.wait`
does when the sleep returns. `tA`, `tB` are the times at which A and B call
`wait`. -/
def rlStep (tA tB : ℚ) (s : RLState) : RLEv → RLState
  | .checkA => { s with pendA := some (waitWake s.last tA) }
  | .checkB => { s with pendB := some (waitWake s.last tB) }
  | .wakeA =>
    match s.pendA with
    | some w => { s with last := w, reqA := some w }
    | none => s
  | .wakeB =>
    match s.pendB with
    | some w => { s with last := w, reqB := some w }
    | none => s

/-- Run an interleaving of the two calls from recorded timestamp `l0`. -/
def rlRun (tA tB l0 : ℚ) (evs : List RLEv) : RLState :=
  evs.foldl (rlStep tA tB) { last := l0 }

/-! ## The record validators (pydantic models, src/models.py) -/

/-- `MarketCategory` from src/models.py lines 18-27. -/
inductive MarketCategory where
  | forex
  | indices
  | commodities
  | bonds
  | crypto
  | stocks
  | etfs
  | derivatives
deriving DecidableEq

/-- One character of the symbol charset `[A-Za-z0-9\-\.\/]` (src/models.py
line 116). -/
def symbolCharOk (c : Char) : Bool :=
  c.isAlpha ∨ c.isDigit ∨ c = '-' ∨ c = '.' ∨ c = '/'

/-- A validated `MarketInstrument` (src/models.py lines 47-130). The
timestamp default plays no role in validation and is omitted. `open` is a
Lean keyword, so that field is spelled `openPrice`. -/
structure MarketInstrument where
  symbol : Str
  name : Str
  value : ℚ
  change : Option ℚ
  pct_change : Option ℚ
  category : MarketCategory
  bid : Option ℚ := none
  ask : Option ℚ := none
  high : Option ℚ := none
  low : Option ℚ := none
  openPrice : Option ℚ := none
  previous_close : Option ℚ := none

/-- Python truthiness of `self.previous_close`: `None` and `0.0` are falsy
(src/models.py line 123). -/
def prevCloseTruthy : Option ℚ → Bool
  | none => false
  | some q => if q = 0 then false else true

/-- The `pct_change` field bounds `ge=-100, le=100` (src/models.py lines
73-78). -/
def pctBoundsOk : Option ℚ → Bool
  | none => true
  | some p => decide (-100 ≤ p ∧ p ≤ 100)

/-- `MarketInstrument.validate_change_consistency` (src/models.py lines
120-130) as a predicate: `true` means the validator returns the record,
`false` means it raises (rejecting the whole record). The division by
`previous_close` sits under the truthiness guard, so it is only reached
when `previous_close` is present and non-zero. -/
def changeConsistencyOk : Option ℚ → Option ℚ → Option ℚ → Bool
  | some ch, some pc, prev =>
    if prevCloseTruthy prev then
      match prev with
      | some pv => decide (|pc - ch / pv * 100| ≤ 1/100)
      | none => true
    else true
  | _, _, _ => true

/-- Constructing a `MarketInstrument` through pydantic validation
(src/models.py lines 47-130): field constraints (symbol length 1-50 and
charset, name length 1-200, `pct_change` bounds), the symbol upper-casing
of `symbol_must_be_valid`, then the model-level
`validate_change_consistency`; any failure rejects the whole record. -/
def mkMarketInstrument (symbol name : Str) (value : ℚ) (change pct_change : Option ℚ)
    (category : MarketCategory) (previous_close : Option ℚ) : Except Str MarketInstrument :=
  if ¬ (1 ≤ symbol.length ∧ symbol.length ≤ 50) then .error (lit "symbol length")
  else if ¬ symbol.all symbolCharOk then .error (lit "Invalid symbol format")
  else if ¬ (1 ≤ name.length ∧ name.length ≤ 200) then .error (lit "name length")
  else if ¬ pctBoundsOk pct_change then .error (lit "pct_change out of bounds")
  else if ¬ changeConsistencyOk change pct_change previous_close then
    .error (lit "Inconsistent change values")
  else
    .ok { symbol := pyUpper symbol, name := name, value := value, change := change,
          pct_change := pct_change, category := category,
          previous_close := previous_close }

/-- Whether an `Except` result is a success. -/
def isOkE : Except ε α → Bool
  | .ok _ => true
  | .error _ => false

/-- A validated `NewsArticle` (src/models.py lines 207-277). The timestamp
carries no validation and is omitted from the embedding. -/
structure NewsArticle where
  title : Str
  summary : Option Str
  url : Str
  source : Option Str
  category : Option Str
  sentiment : Option Str
deriving DecidableEq

/-- Length bound on an optional string field (pydantic `max_length` accepts
`None`). -/
def optLenLe (n : ℕ) : Option Str → Bool
  | none => true
  | some s => decide (s.length ≤ n)

/-- `NewsArticle.sentiment_must_be_valid` (src/models.py lines 268-277). -/
def sentimentOk : Option Str → Bool
  | none => true
  | some s =>
    [lit "positive", lit "negative", lit "neutral", lit "bullish",
     lit "bearish"].contains (pyLower s)

/-- Constructing a `NewsArticle` through pydantic validation (src/models.py
lines 207-277): title length 1-500, summary at most 2000 characters, url at
most 1000 characters and matching the URL grammar, source/category length
bounds, sentiment enum (stored lower-cased). The URL grammar regex (lines
251-263) is taken as the parameter `urlOk`: no claim depends on its
details, only on whether the record is accepted. -/
def mkNewsArticle (urlOk : Str → Bool) (title : Str) (summary : Option Str) (url : Str)
    (source category sentiment : Option Str) : Except Str NewsArticle :=
  if ¬ (1 ≤ title.length ∧ title.length ≤ 500) then .error (lit "title length")
  else if ¬ optLenLe 2000 summary then .error (lit "summary length")
  else if ¬ (url.length ≤ 1000) then .error (lit "url length")
  else if ¬ urlOk url then .error (lit "Invalid URL format")
  else if ¬ optLenLe 100 source then .error (lit "source length")
  else if ¬ optLenLe 50 category then .error (lit "category length")
  else if ¬ sentimentOk sentiment then .error (lit "Invalid sentiment")
  else
    .ok { title := title, summary := summary, url := url, source := source,
          category := category, sentiment := sentiment.map pyLower }

/-- The summary cap of `_extract_article_from_element`
(src/parsers/headlines.py lines 238-240): a non-empty summary longer than
500 characters becomes its first 497 characters plus `"..."`. -/
def truncSummary (s : Str) : Str :=
  if s ≠ [] ∧ 500 < s.length then s.take 497 ++ lit "..." else s

/-! ## The HTML document model

BeautifulSoup tags and strings are modelled as a tree; the attributes the
parsers consult are `id`, `class` (multi-valued), and `href`. `Tag`
equality in bs4 (used by the `not in` dedup checks) is structural, which
`DecidableEq` mirrors. -/

/-- The attributes the row-locating strategies read. -/
structure Attrs where
  idAttr : Option Str := none
  classes : List Str := []
  href : Option Str := none
deriving DecidableEq

mutual

/-- An HTML node: a tag with attributes and children, or a text node. -/
inductive Node where
  | elem (tag : Str) (attrs : Attrs) (children : NodeList)
  | txt (s : Str)

/-- A list of sibling nodes (kept as its own inductive so all traversals
are by plain structural recursion). -/
inductive NodeList where
  | nil
  | cons (head : Node) (tail : NodeList)

end

deriving instance DecidableEq for Node

/-- Build a `NodeList` from a `List Node`. -/
def nodesOf : List Node → NodeList
  | [] => .nil
  | h :: t => .cons h (nodesOf t)

/-- Convenience constructor for an element node. -/
def el (tag : String) (attrs : Attrs) (children : List Node) : Node :=
  .elem (lit tag) attrs (nodesOf children)

mutual

/-- Every node of the subtree in document order (pre-order), paired with
its chain of ancestors within the traversal root, root-first. -/
def nodesAnc (anc : List Node) : Node → List (Node × List Node)
  | .txt s => [(.txt s, anc)]
  | .elem t a cs => (.elem t a cs, anc) :: nodesAncL (anc ++ [.elem t a cs]) cs

/-- `nodesAnc` over a sibling list. -/
def nodesAncL (anc : List Node) : NodeList → List (Node × List Node)
  | .nil => []
  | .cons h tl => nodesAnc anc h ++ nodesAncL anc tl

end

/-- The proper descendants of a node (what `find`/`find_all`/`select`
search), in document order, each with its ancestor chain within `n`
(which includes `n` itself). -/
def descendants (n : Node) : List (Node × List Node) :=
  (nodesAnc [] n).drop 1

mutual

/-- `get_text(strip=True)`: the stripped text of every descendant string,
concatenated in document order. -/
def getTextStrip : Node → Str
  | .txt s => pyStrip s
  | .elem _ _ cs => getTextStripL cs

/-- `getTextStrip` over a sibling list. -/
def getTextStripL : NodeList → Str
  | .nil => []
  | .cons h tl => getTextStrip h ++ getTextStripL tl

end

/-- Whether a node is a tag named `t`. -/
def tagIs (t : Str) : Node → Bool
  | .elem tg _ _ => tg == t
  | .txt _ => false

/-- Whether a node is a tag with `id` equal to `x`. -/
def idIs (x : Str) : Node → Bool
  | .elem _ a _ => a.idAttr == some x
  | .txt _ => false

/-- The class list of a node (empty for text nodes). -/
def classList : Node → List Str
  | .elem _ a _ => a.classes
  | .txt _ => []

/-- The `href` attribute of a node. -/
def hrefOf : Node → Option Str
  | .elem _ a _ => a.href
  | .txt _ => none

/-- Whether a node carries the exact class token `c` (a CSS `.c` match). -/
def classHas (c : Str) : Node → Bool :=
  fun n => (classList n).contains c

/-- Python's substring test `pat in s`. -/
def isSubstr (pat s : Str) : Bool :=
  decide (pat <:+: s)

/-- `soup.find(...)`: the first descendant satisfying `p`, in document
order. -/
def findFirstNode (p : Node → Bool) (doc : Node) : Option Node :=
  ((descendants doc).map Prod.fst).find? p

/-- `soup.find_all(...)`: every descendant satisfying `p`, in document
order. -/
def findAllNodes (p : Node → Bool) (doc : Node) : List Node :=
  ((descendants doc).map Prod.fst).filter p

/-- `tag.find_parent(names)`: the nearest ancestor whose tag is one of
`ts`, given the ancestor chain root-first. -/
def findParentIn (ts : List Str) (anc : List Node) : Option Node :=
  anc.reverse.find? (fun a => ts.any (fun t => tagIs t a))

/-- Whether the ancestor chain (root-first) has a node satisfying `outer`
with a `tbody` tag strictly below it: the `outer tbody tr` CSS descendant
pattern, checked at a `tr`. -/
def hasOuterThenTbody (outer : Node → Bool) : List Node → Bool
  | [] => false
  | a :: rest => (outer a ∧ rest.any (tagIs (lit "tbody"))) ∨ hasOuterThenTbody outer rest

/-- `panel.select('tbody tr.row-data, tbody tr')` (equivalent to
`tbody tr`, since every `tr.row-data` under a `tbody` is also a `tr` under
one): the `tr` descendants of `panel` with a `tbody` ancestor within it, in
document order. -/
def tbodyTrRows (panel : Node) : List Node :=
  (descendants panel).filterMap (fun pr =>
    if tagIs (lit "tr") pr.1 ∧ pr.2.any (tagIs (lit "tbody")) then some pr.1 else none)

/-- The first cell texts used by the symbol-whitelist fallbacks:
`row.find_all(['td', 'th'])`. -/
def rowCellNodes (row : Node) : List Node :=
  findAllNodes (fun n => tagIs (lit "td") n ∨ tagIs (lit "th") n) row

/-- `soup.select('table tbody tr')`: `tr` elements under a `tbody` that
itself sits under a `table`. -/
def tableTbodyTrRows (doc : Node) : List Node :=
  (descendants doc).filterMap (fun pr =>
    if tagIs (lit "tr") pr.1 ∧ hasOuterThenTbody (tagIs (lit "table")) pr.2 then
      some pr.1
    else none)

/-- `firstNonempty [r1, r2, ...]`: the result of the first strategy that
produced at least one row — the chain semantics §4.4 of the spec states. -/
def firstNonempty : List (List Node) → List Node
  | [] => []
  | r :: rest => if r ≠ [] then r else firstNonempty rest

/-! ### The ETF row-locating chain (src/parsers/etfs.py lines 36-68) -/

/-- `soup.find(id='etf') or soup.find(id='etfs') or
soup.find(id='exchange-traded-funds')`. -/
def etfPanel (doc : Node) : Option Node :=
  (findFirstNode (idIs (lit "etf")) doc).orElse (fun _ =>
    (findFirstNode (idIs (lit "etfs")) doc).orElse (fun _ =>
      findFirstNode (idIs (lit "exchange-traded-funds")) doc))

/-- `soup.find_all('table', class_=lambda c: c and 'etf' in str(c).lower())`:
tables one of whose classes contains `etf`. -/
def etfClassTables (doc : Node) : List Node :=
  findAllNodes (fun n =>
    tagIs (lit "table") n ∧ (classList n).any (fun c => isSubstr (lit "etf") (pyLower c))) doc

/-- `soup.select('.etf-table tbody tr, #etfs tbody tr')`. -/
def etfSel3 (doc : Node) : List Node :=
  (descendants doc).filterMap (fun pr =>
    if tagIs (lit "tr") pr.1 ∧
        (hasOuterThenTbody (classHas (lit "etf-table")) pr.2 ∨
         hasOuterThenTbody (idIs (lit "etfs")) pr.2) then
      some pr.1
    else none)

/-- The ETF symbol whitelist (src/parsers/etfs.py lines 59-61; the source
set literal repeats `GSG`). -/
def etfSymbols : List Str :=
  [lit "SPY", lit "QQQ", lit "IWM", lit "VTI", lit "VOO", lit "IVV", lit "DIA",
   lit "EEM", lit "EFA", lit "VWO", lit "AGG", lit "BND", lit "TLT", lit "SHY",
   lit "IEI", lit "LQD", lit "VCIT", lit "VCSH", lit "HYG", lit "JNK",
   lit "GLD", lit "SLV", lit "USO", lit "UNG", lit "DBA", lit "DBC",
   lit "GSG", lit "CRB", lit "PDBC", lit "GSG"]

/-- The ETF fallback: rows of `table tbody tr` whose first `td`/`th` text,
upper-cased, is a whitelisted ETF symbol. -/
def etfSymbolRows (doc : Node) : List Node :=
  (tableTbodyTrRows doc).filter (fun row =>
    match rowCellNodes row with
    | [] => false
    | c0 :: _ => etfSymbols.contains (pyUpper (getTextStrip c0)))

/-- Strategy 1 of the ETF chain as a standalone row producer: the rows of
the id-panel, when one exists. -/
def etfStrat1 (doc : Node) : List Node :=
  match etfPanel doc with
  | some p => tbodyTrRows p
  | none => []

/-- Strategy 2 of the ETF chain as a standalone row producer: the rows of
every `etf`-classed table. -/
def etfStrat2 (doc : Node) : List Node :=
  (etfClassTables doc).flatMap tbodyTrRows

/-- `_find_etf_rows` (src/parsers/etfs.py lines 36-68), transcribed with
its early returns: an id-panel, if found, is committed to even when it
holds no rows, and likewise a non-empty set of `etf`-classed tables. -/
def findEtfRows (doc : Node) : List Node :=
  match etfPanel doc with
  | some panel => tbodyTrRows panel
  | none =>
    let tables := etfClassTables doc
    if tables ≠ [] then tables.flatMap tbodyTrRows
    else
      let rows := etfSel3 doc
      if rows ≠ [] then rows
      else etfSymbolRows doc

/-! ### The derivatives row-locating chain (src/parsers/derivatives.py
lines 52-97) -/

/-- `soup.find(id='futures') or soup.find(id='derivatives') or
soup.find(id='options')`. -/
def dvPanel (doc : Node) : Option Node :=
  (findFirstNode (idIs (lit "futures")) doc).orElse (fun _ =>
    (findFirstNode (idIs (lit "derivatives")) doc).orElse (fun _ =>
      findFirstNode (idIs (lit "options")) doc))

/-- The class keywords of the derivatives table search (line 61). -/
def dvClassKeywords : List Str :=
  [lit "future", lit "derivative", lit "option", lit "vix", lit "index-future"]

/-- `soup.find_all('table', class_=lambda c: c and any(x in str(c).lower()
for x in [...]))`. -/
def dvClassTables (doc : Node) : List Node :=
  findAllNodes (fun n =>
    tagIs (lit "table") n ∧
      (classList n).any (fun c => dvClassKeywords.any (fun k => isSubstr k (pyLower c)))) doc

/-- `soup.select('.futures-table tbody tr, #futures tbody tr,
.derivatives-table tbody tr')`. -/
def dvSel3 (doc : Node) : List Node :=
  (descendants doc).filterMap (fun pr =>
    if tagIs (lit "tr") pr.1 ∧
        (hasOuterThenTbody (classHas (lit "futures-table")) pr.2 ∨
         hasOuterThenTbody (idIs (lit "futures")) pr.2 ∨
         hasOuterThenTbody (classHas (lit "derivatives-table")) pr.2) then
      some pr.1
    else none)

/-- The derivatives symbol whitelist (src/parsers/derivatives.py lines
77-85; the source set literal repeats `ZC`). -/
def dvSymbols : List Str :=
  [lit "VIX", lit "VXST", lit "VXN", lit "VXO",
   lit "ES", lit "NQ", lit "YM", lit "RTY",
   lit "CL", lit "NG", lit "GC", lit "SI", lit "HG", lit "ZC", lit "ZS",
   lit "ZM", lit "ZL",
   lit "ZB", lit "ZC", lit "ZN", lit "ZF", lit "ZT",
   lit "ED", lit "EU", lit "BP", lit "CD", lit "JY", lit "SF", lit "AD",
   lit "NZD",
   lit "ESM25", lit "NQM25", lit "YMH25", lit "CLM25", lit "NGM25", lit "GCM25",
   lit "SPX", lit "SPY", lit "QQQ", lit "IWM"]

/-- The derivatives fallback (lines 87-95): rows whose first-cell text,
upper-cased, contains a whitelisted symbol as a substring (the exact-match
`elif` of line 94 is subsumed by the substring test, and transcribed
anyway). -/
def dvSymbolRows (doc : Node) : List Node :=
  (tableTbodyTrRows doc).filter (fun row =>
    match rowCellNodes row with
    | [] => false
    | c0 :: _ =>
      let symbolText := pyUpper (getTextStrip c0)
      dvSymbols.any (fun sym => isSubstr sym symbolText) ∨
        dvSymbols.contains symbolText)

/-- Strategy 1 of the derivatives chain as a standalone row producer. -/
def dvStrat1 (doc : Node) : List Node :=
  match dvPanel doc with
  | some p => tbodyTrRows p
  | none => []

/-- Strategy 2 of the derivatives chain as a standalone row producer. -/
def dvStrat2 (doc : Node) : List Node :=
  (dvClassTables doc).flatMap tbodyTrRows

/-- `_find_derivatives_rows` (src/parsers/derivatives.py lines 52-97),
transcribed with its early returns: an id-panel, if found, is committed to
even when it holds no rows, and likewise a non-empty set of keyword-classed
tables. -/
def findDerivativesRows (doc : Node) : List Node :=
  match dvPanel doc with
  | some panel => tbodyTrRows panel
  | none =>
    let tables := dvClassTables doc
    if tables ≠ [] then tables.flatMap tbodyTrRows
    else
      let rows := dvSel3 doc
      if rows ≠ [] then rows
      else dvSymbolRows doc

/-! ### The headline article-locating chain (src/parsers/headlines.py
lines 115-179) -/

/-- The class keywords of headline strategy 2 (lines 123-133). -/
def headlineClasses : List Str :=
  [lit "headline", lit "news-item", lit "article-item", lit "news-article",
   lit "headline-item", lit "story", lit "news-story", lit "feed-item",
   lit "post-preview"]

/-- Whether some class of the node contains `cls` (lower-cased) as a
substring. -/
def classSubstrMatch (cls : Str) (n : Node) : Bool :=
  (classList n).any (fun c => isSubstr cls (pyLower c))

/-- Headline strategy 1: `soup.find_all('article')`. -/
def hlStrat1 (doc : Node) : List Node :=
  findAllNodes (tagIs (lit "article")) doc

/-- The strategy-2 loop (lines 135-138): the first class keyword whose
`find_all` is non-empty wins. -/
def hlClassLoop (doc : Node) : List Str → List Node
  | [] => []
  | cls :: rest =>
    let es := findAllNodes (classSubstrMatch cls) doc
    if es ≠ [] then es else hlClassLoop doc rest

/-- Headline strategy 2. -/
def hlStrat2 (doc : Node) : List Node :=
  hlClassLoop doc headlineClasses

/-- Whether a node has an `a` descendant (`tag.find('a')` is truthy). -/
def hasADesc (n : Node) : Bool :=
  (descendants n).any (fun pr => tagIs (lit "a") pr.1)

/-- Headline strategy 3 (lines 141-151): `h1`-`h3` tags with a link and
more than 10 characters of text, walked up to their nearest
`div`/`section`/`article`/`li` ancestor, deduplicated structurally (bs4
`Tag.__eq__`, which Python's `not in` uses, is structural). -/
def hlStrat3 (doc : Node) : List Node :=
  ((descendants doc).filter (fun pr =>
      tagIs (lit "h1") pr.1 ∨ tagIs (lit "h2") pr.1 ∨ tagIs (lit "h3") pr.1)).foldl
    (fun acc pr =>
      if hasADesc pr.1 ∧ 10 < (getTextStrip pr.1).length then
        match findParentIn [lit "div", lit "section", lit "article", lit "li"] pr.2 with
        | some parent => if acc.contains parent then acc else acc ++ [parent]
        | none => acc
      else acc) []

/-- The container collection of strategy 4 and of the link fallback: each
link's nearest `div`/`li`/`article` ancestor, deduplicated structurally.
Each link comes with its document-level ancestor chain. -/
def collectContainers (links : List (Node × List Node)) : List Node :=
  links.foldl (fun acc q =>
    match findParentIn [lit "div", lit "li", lit "article"] q.2 with
    | some c => if acc.contains c then acc else acc ++ [c]
    | none => acc) []

/-- The text nodes containing `news` (case-insensitively), with their
ancestor chains: `soup.find_all(string=lambda t: t and 'news' in
t.lower())`. -/
def newsTextNodes (doc : Node) : List (Node × List Node) :=
  (descendants doc).filter (fun pr =>
    match pr.1 with
    | .txt s => isSubstr (lit "news") (pyLower s)
    | .elem _ _ _ => false)

/-- The strategy-4 loop (lines 154-166): for each `news` text node, take
its parent's links; if the first five links yield any containers, return
them, else move to the next text node. -/
def hl4Loop : List (Node × List Node) → List Node
  | [] => []
  | pr :: rest =>
    match pr.2.getLast? with
    | none => hl4Loop rest
    | some parent =>
      let links := (descendants parent).filter (fun q => tagIs (lit "a") q.1)
      if links ≠ [] then
        let linksAnc := (links.take 5).map (fun q => (q.1, pr.2.dropLast ++ q.2))
        let containers := collectContainers linksAnc
        if containers ≠ [] then containers else hl4Loop rest
      else hl4Loop rest

/-- Headline strategy 4. -/
def hlStrat4 (doc : Node) : List Node :=
  hl4Loop (newsTextNodes doc)

/-- The href patterns of the link fallback (line 169). -/
def hrefPatterns : List Str :=
  [lit "/news/", lit "/article", lit "/story", lit "/2024", lit "/2025"]

/-- The link fallback (lines 169-177): links whose `href` contains one of
the patterns, their first five walked up to containers. -/
def hlStrat5 (doc : Node) : List Node :=
  let links := (descendants doc).filter (fun q =>
    tagIs (lit "a") q.1 &&
      match hrefOf q.1 with
      | some h => hrefPatterns.any (fun p => isSubstr p h)
      | none => false)
  if links ≠ [] then
    let containers := collectContainers (links.take 5)
    if containers ≠ [] then containers else []
  else []

/-- `_find_headline_articles` (src/parsers/headlines.py lines 115-179),
transcribed with its early returns. -/
def findHeadlineArticles (doc : Node) : List Node :=
  let articles := hlStrat1 doc
  if articles ≠ [] then articles
  else
    let byClass := hlStrat2 doc
    if byClass ≠ [] then byClass
    else
      let h3 := hlStrat3 doc
      if h3 ≠ [] then h3
      else
        let s4 := hlStrat4 doc
        if s4 ≠ [] then s4
        else hlStrat5 doc

/-! ### Article field extraction (src/parsers/headlines.py lines 182-269) -/

/-- `element.find(t)` for a single tag name: first matching descendant. -/
def findFirstTag (t : Str) (n : Node) : Option Node :=
  findFirstNode (tagIs t) n

/-- `element.find([t1, t2, ...])`: first descendant whose tag is one of the
names (a name like `".title"` in the source's list can never match a tag
name and is transcribed as the literal it is). -/
def findFirstTagIn (ts : List Str) (n : Node) : Option Node :=
  findFirstNode (fun m => ts.any (fun t => tagIs t m)) n

/-- Python truthiness of an optional string: `None` and `""` are falsy. -/
def truthyStr : Option Str → Bool
  | none => false
  | some s => decide (s ≠ [])

/-- The title search of `_extract_article_from_element` (lines 185-203):
first `h1`-`h4` heading text, else first `strong`/`b` text, else first link
text; each fallback fires when the previous result is falsy. -/
def extractTitle (element : Node) : Option Str :=
  let t1 := ([lit "h1", lit "h2", lit "h3", lit "h4"].findSome?
    (fun t => findFirstTag t element)).map getTextStrip
  let t2 := if truthyStr t1 then t1 else
    (findFirstTagIn [lit "strong", lit "b", lit ".title", lit ".headline"] element).map
      getTextStrip
  if truthyStr t2 then t2 else (findFirstTag (lit "a") element).map getTextStrip

/-- `element.find('a', href=True)`: the `href` of the first link that has
one. -/
def findFirstAHref (element : Node) : Option Str :=
  (descendants element).findSome? (fun pr =>
    if tagIs (lit "a") pr.1 then hrefOf pr.1 else none)

/-- The URL resolution of lines 208-230: a root-relative href is prefixed
with the `<base href>` of the element's `html` ancestor when one exists,
else with the fixed default; an `http(s)` href is kept; anything else
leaves the URL unset (the record is then dropped). The base lookup walks
the document-level ancestors, which the tree embedding does not carry, so
it enters as the parameter `baseOf`. -/
def extractUrl (baseOf : Node → Option Str) (element : Node) : Option Str :=
  match findFirstAHref element with
  | none => none
  | some href =>
    if href.head? = some '/' then
      some ((baseOf element).getD (lit "https://tradingeconomics.com") ++ href)
    else if (lit "http").isPrefixOf href then some href
    else none

/-- The summary search of lines 233-241: the text of the first `p`
descendant (the other entries of the source's tag list are class selectors
that `find` treats as tag names and can never match), capped by
`truncSummary`. -/
def extractSummary (element : Node) : Option Str :=
  match findFirstTagIn [lit "p", lit ".summary", lit ".excerpt", lit ".description",
      lit ".snippet"] element with
  | some e => some (truncSummary (getTextStrip e))
  | none => none

/-- `element.find(['span','div','a'], class_=...)` with a class-substring
predicate (lines 250-258). -/
def findFirstTagClassSub (key : Str) (element : Node) : Option Node :=
  findFirstNode (fun m =>
    (tagIs (lit "span") m ∨ tagIs (lit "div") m ∨ tagIs (lit "a") m) ∧
      (classList m).any (fun c => isSubstr key (pyLower c))) element

/-- The source search of lines 249-252. -/
def extractSource (element : Node) : Option Str :=
  (findFirstTagClassSub (lit "source") element).map getTextStrip

/-- The category search of lines 255-258. -/
def extractCategory (element : Node) : Option Str :=
  (findFirstNode (fun m =>
    (tagIs (lit "span") m ∨ tagIs (lit "div") m ∨ tagIs (lit "a") m) ∧
      (classList m).any (fun c =>
        isSubstr (lit "category") (pyLower c) ∨ isSubstr (lit "tag") (pyLower c) ∨
          isSubstr (lit "topic") (pyLower c))) element).map getTextStrip

/-- `_extract_article_from_element` (src/parsers/headlines.py lines
182-269): extract title, URL, summary, source and category, then build the
pydantic `NewsArticle`; a missing/short title or unusable URL, or a
validation error (caught by the `except` of line 268), drops the element.
The timestamp fields carry no validation and are omitted. -/
def extractArticle (baseOf : Node → Option Str) (urlOk : Str → Bool)
    (element : Node) : Option NewsArticle :=
  match extractTitle element with
  | none => none
  | some title =>
    if title.length < 5 then none
    else
      match extractUrl baseOf element with
      | none => none
      | some url =>
        match mkNewsArticle urlOk title (extractSummary element) url
            (extractSource element) (extractCategory element) none with
        | .ok a => some a
        | .error _ => none

/-! ### Concrete documents used by counterexamples and witnesses -/

/-- A document with no elements at all (what parsing the empty string
yields). -/
def emptyDoc : Node :=
  el "[document]" {} []

/-- The empty panel of `c7doc`: a `div` with `id="etf"` and no rows. -/
def c7panel : Node :=
  el "div" { idAttr := some (lit "etf") } []

/-- A page whose `id="etf"` panel is empty while an `etf`-classed table
holds a row: the ETF chain commits to the empty panel and returns no rows,
although its second strategy would find one. -/
def c7doc : Node :=
  el "[document]" {} [
    c7panel,
    el "table" { classes := [lit "etf-data"] } [
      el "tbody" {} [
        el "tr" {} [
          el "td" {} [.txt (lit "SPY")],
          el "td" {} [.txt (lit "478.50")]]]]]

/-- A headline element: a container with a heading and a link. -/
def c9elem : Node :=
  el "div" {} [
    el "h2" {} [.txt (lit "Markets rally on rate cut hopes")],
    el "a" { href := some (lit "http://example.com/news/1") } []]

/-! ## Helper lemmas -/

theorem lastSome?_nil (f : α → Option β) : lastSome? f [] = none := rfl

theorem lastSome?_cons (f : α → Option β) (a : α) (l : List α) :
    lastSome? f (a :: l) = (lastSome? f l).or (f a) := by
  simp [lastSome?, List.findSome?_append]
  cases h : f a <;> cases ht : List.findSome? f l.reverse <;> simp [List.findSome?, h, ht]

theorem foldl_orUpdate (f : α → Option β) (step : Option β → α → Option β)
    (hstep : ∀ acc x, step acc x = (f x).or acc) (l : List α) (init : Option β) :
    l.foldl step init = (lastSome? f l).or init := by
  induction l generalizing init with
  | nil => simp [lastSome?, List.findSome?]
  | cons a t ih =>
    rw [List.foldl_cons, ih, hstep, lastSome?_cons, Option.or_assoc]

theorem foldl_snd_orUpdate {γ : Type} (g : α → Option β)
    (step : Option γ × Option β → α → Option γ × Option β)
    (hstep : ∀ acc x, (step acc x).2 = (g x).or acc.2) :
    ∀ (l : List α) (acc : Option γ × Option β),
      (l.foldl step acc).2 = (lastSome? g l).or acc.2 := by
  intro l
  induction l with
  | nil => intro acc; simp [lastSome?, List.findSome?]
  | cons a t ih =>
    intro acc
    rw [List.foldl_cons, ih, hstep, lastSome?_cons, Option.or_assoc]

/-! ## C5: the numeric normalizers -/

/-- C5, counterexample: the claim says every normalizer given such input
parses `"(3.2)"` to `-3.2` and `"−1.5%"` (unicode minus) to `-1.5`, but the
macro number parser `_parse_number` removes the parentheses and the unicode
minus without negating, yielding `3.2` and `1.5`. -/
theorem c5_counterexample :
    mcParseNumber (lit "(3.2)") = some ((16 : ℚ)/5)
  ∧ mcParseNumber (lit "(3.2)") ≠ some (-(16 : ℚ)/5)
  ∧ mcParseNumber (lit "−1.5%") = some ((3 : ℚ)/2)
  ∧ mcParseNumber (lit "−1.5%") ≠ some (-(3 : ℚ)/2) := by
  have h1 : mcParseNumber (lit "(3.2)")
      = some ((digitsVal (lit "3") : ℚ) + (digitsVal (lit "2") : ℚ) / (10:ℚ) ^ (lit "2").length) := by
    rfl
  have h2 : mcParseNumber (lit "−1.5%")
      = some ((digitsVal (lit "1") : ℚ) + (digitsVal (lit "5") : ℚ) / (10:ℚ) ^ (lit "5").length) := by
    rfl
  have d3 : digitsVal (lit "3") = 3 := by decide
  have d2 : digitsVal (lit "2") = 2 := by decide
  have d1 : digitsVal (lit "1") = 1 := by decide
  have d5 : digitsVal (lit "5") = 5 := by decide
  have l2 : (lit "2").length = 1 := by decide
  have l5 : (lit "5").length = 1 := by decide
  rw [h1, h2, d3, d2, d1, d5, l2, l5]
  refine ⟨by norm_num, by simp; norm_num, by norm_num, by simp; norm_num⟩

/-- C5 (amended): the markets price normalizer and percentage normalizer
satisfy the claimed round-trips (`"$1,234.50"` → `1234.50`; `"(3.2)"` →
`-3.2`; `"−1.5%"` → `-1.5`; `"n/a"` → `None`), and the macro number parser
agrees on `"$1,234.50"` and `"n/a"`, but it strips parentheses and the
unicode minus without negating, so `"(3.2)"` → `3.2` and `"−1.5%"` → `1.5`
there. -/
theorem c5_normalizer_roundtrips :
    mkParsePrice (lit "$1,234.50") = some ((2469 : ℚ)/2)
  ∧ mkParsePercentage (lit "(3.2)") = some (-(16 : ℚ)/5)
  ∧ mkParsePercentage (lit "−1.5%") = some (-(3 : ℚ)/2)
  ∧ mkParsePrice (lit "n/a") = none
  ∧ mkParsePercentage (lit "n/a") = none
  ∧ mcParseNumber (lit "n/a") = none
  ∧ mcParseNumber (lit "$1,234.50") = some ((2469 : ℚ)/2)
  ∧ mcParseNumber (lit "(3.2)") = some ((16 : ℚ)/5)
  ∧ mcParseNumber (lit "−1.5%") = some ((3 : ℚ)/2) := by
  have h1 : mkParsePrice (lit "$1,234.50")
      = some ((digitsVal (lit "1234") : ℚ) + (digitsVal (lit "50") : ℚ) / (10:ℚ) ^ (lit "50").length) := by
    rfl
  have h2 : mkParsePercentage (lit "(3.2)")
      = some (-((digitsVal (lit "3") : ℚ) + (digitsVal (lit "2") : ℚ) / (10:ℚ) ^ (lit "2").length)) := by
    rfl
  have h3 : mkParsePercentage (lit "−1.5%")
      = some (-((digitsVal (lit "1") : ℚ) + (digitsVal (lit "5") : ℚ) / (10:ℚ) ^ (lit "5").length)) := by
    rfl
  have h7 : mcParseNumber (lit "$1,234.50")
      = some ((digitsVal (lit "1234") : ℚ) + (digitsVal (lit "50") : ℚ) / (10:ℚ) ^ (lit "50").length) := by
    rfl
  have h8 : mcParseNumber (lit "(3.2)")
      = some ((digitsVal (lit "3") : ℚ) + (digitsVal (lit "2") : ℚ) / (10:ℚ) ^ (lit "2").length) := by
    rfl
  have h9 : mcParseNumber (lit "−1.5%")
      = some ((digitsVal (lit "1") : ℚ) + (digitsVal (lit "5") : ℚ) / (10:ℚ) ^ (lit "5").length) := by
    rfl
  have da : digitsVal (lit "1234") = 1234 := by decide
  have db : digitsVal (lit "50") = 50 := by decide
  have d3 : digitsVal (lit "3") = 3 := by decide
  have d2 : digitsVal (lit "2") = 2 := by decide
  have d1 : digitsVal (lit "1") = 1 := by decide
  have d5 : digitsVal (lit "5") = 5 := by decide
  have la : (lit "50").length = 2 := by decide
  have l2 : (lit "2").length = 1 := by decide
  have l5 : (lit "5").length = 1 := by decide
  rw [h1, h2, h3, h7, h8, h9, da, db, d3, d2, d1, d5, la, l2, l5]
  refine ⟨by norm_num, by norm_num, by norm_num, by decide, by decide, by decide,
    by norm_num, by norm_num, by norm_num⟩

/-! ## C6: percent-change cell selection -/

/-- C6, counterexample: the claim says a cell is assigned to percent-change
only if its text contains `%`, but the forex loop assigns the price cell
`"1.0850"` — which bears no `%` — as `pct_change`. -/
theorem c6_counterexample :
    forexPctChange [lit "EUR/USD", lit "1.0850"] = some ((217 : ℚ)/200)
  ∧ (lit "EUR/USD").contains '%' = false
  ∧ (lit "1.0850").contains '%' = false := by
  have h : forexPctChange [lit "EUR/USD", lit "1.0850"]
      = some ((digitsVal (lit "1") : ℚ) + (digitsVal (lit "0850") : ℚ) / (10:ℚ) ^ (lit "0850").length) := by
    rfl
  have d1 : digitsVal (lit "1") = 1 := by decide
  have d0 : digitsVal (lit "0850") = 850 := by decide
  have l0 : (lit "0850").length = 4 := by decide
  rw [h, d1, d0, l0]
  refine ⟨by norm_num, by decide, by decide⟩

/-- C6 (amended): only the derivatives loop requires a `%` in the cell text
(and there the `%`-bearing parseable cell from index 3 on closest to the
row's end wins); the forex loop assigns the last cell that parses as a
number, `%` or not; the ETF loop assigns the last parseable cell among the
last two positions (from index 3 on), `%` not required, the one closest to
the end winning. `lastSome? f l` picks the value of the last element on
which `f` succeeds. -/
theorem c6_pct_selection (cells : List Str) :
    forexPctChange cells = lastSome? mkParsePercentage cells
  ∧ (dvChangePct cells).2
      = lastSome? (fun c => if c.contains '%' then dvParsePercentage c else none)
          (cells.drop 3)
  ∧ (etfChangePct cells).2
      = lastSome? (fun ic : ℕ × Str =>
          match etfParsePercentage ic.2 with
          | some p =>
            if ic.1 = cells.length - 1 ∨ ic.1 = cells.length - 2 then some p else none
          | none => none)
          (List.enumFrom 3 (cells.drop 3)) := by
  have hdv : ∀ (acc : Option ℚ × Option ℚ) (c : Str),
      (dvStep acc c).2 = (if c.contains '%' then dvParsePercentage c else none).or acc.2 := by
    intro acc c
    unfold dvStep
    by_cases h : c.contains '%'
    · rw [if_pos h, if_pos h]
      cases hp : dvParsePercentage c <;> simp
    · rw [if_neg h, if_neg h, Option.none_or]
      split
      · cases hc : dvParseChange c
        · rfl
        · dsimp only
          split <;> rfl
      · rfl
  have hetf : ∀ (acc : Option ℚ × Option ℚ) (ic : ℕ × Str),
      (etfStep cells.length acc ic).2
        = ((fun ic : ℕ × Str =>
            match etfParsePercentage ic.2 with
            | some p =>
              if ic.1 = cells.length - 1 ∨ ic.1 = cells.length - 2 then some p
              else none
            | none => none) ic).or acc.2 := by
    intro acc ic
    unfold etfStep
    cases hp : etfParsePercentage ic.2
    · simp [hp]
    · simp only [hp]
      by_cases h1 : ic.1 = cells.length - 1
      · simp [h1]
      · by_cases h2 : ic.1 = cells.length - 2
        · simp [h1, h2]
        · simp only [h1, h2, if_false, or_self, Option.none_or]
          split <;> rfl
  have hfx : ∀ (acc : Option ℚ) (c : Str),
      forexStep acc c = (mkParsePercentage c).or acc := by
    intro acc c
    unfold forexStep
    cases mkParsePercentage c <;> rfl
  refine ⟨?_, ?_, ?_⟩
  · have h := foldl_orUpdate mkParsePercentage forexStep hfx cells none
    exact h.trans (Option.or_none)
  · have h := foldl_snd_orUpdate _ dvStep hdv (cells.drop 3) (none, none)
    exact h.trans (Option.or_none)
  · have h := foldl_snd_orUpdate _ (etfStep cells.length) hetf
      (List.enumFrom 3 (cells.drop 3)) (none, none)
    exact h.trans (Option.or_none)

/-! ## C7: the row-locating strategy chains -/

/-- C7, counterexample: on `c7doc` the ETF panel-ID strategy finds the
empty `id="etf"` panel and the chain returns zero rows, although the next
strategy (the `etf`-classed table) produces a row — the overall result does
not equal the result of the first strategy producing at least one row. -/
theorem c7_counterexample :
    findEtfRows c7doc = []
  ∧ etfStrat1 c7doc = []
  ∧ etfStrat2 c7doc ≠ []
  ∧ findEtfRows c7doc
      ≠ firstNonempty [etfStrat1 c7doc, etfStrat2 c7doc, etfSel3 c7doc,
          etfSymbolRows c7doc] := by
  refine ⟨by decide, by decide, by decide, by decide⟩

/-- C7 (amended): strategies are tried in their fixed order and rows from
different strategies are never merged; the news chain returns the result
of the first strategy producing at least one candidate article container;
but in the ETF and derivatives chains the panel-ID strategy commits once a
panel element exists and the table-class strategy commits once a matching
table exists, even with zero rows, so control passes on only when no panel
and no matching table was found. -/
theorem c7_strategy_chain (doc : Node) :
    findHeadlineArticles doc
      = firstNonempty [hlStrat1 doc, hlStrat2 doc, hlStrat3 doc, hlStrat4 doc,
          hlStrat5 doc]
  ∧ (∀ p, etfPanel doc = some p → findEtfRows doc = tbodyTrRows p)
  ∧ (etfPanel doc = none → etfClassTables doc ≠ [] →
      findEtfRows doc = etfStrat2 doc)
  ∧ (etfPanel doc = none → etfClassTables doc = [] →
      findEtfRows doc = firstNonempty [etfSel3 doc, etfSymbolRows doc])
  ∧ (∀ p, dvPanel doc = some p → findDerivativesRows doc = tbodyTrRows p)
  ∧ (dvPanel doc = none → dvClassTables doc ≠ [] →
      findDerivativesRows doc = dvStrat2 doc)
  ∧ (dvPanel doc = none → dvClassTables doc = [] →
      findDerivativesRows doc = firstNonempty [dvSel3 doc, dvSymbolRows doc]) := by
  refine ⟨?_, ?_, ?_, ?_, ?_, ?_, ?_⟩
  · show findHeadlineArticles doc = _
    rw [findHeadlineArticles]
    simp only [firstNonempty]
    by_cases h1 : hlStrat1 doc = [] <;> simp only [h1, if_neg, if_pos, ite_not]
    · by_cases h2 : hlStrat2 doc = [] <;> simp only [h2, if_neg, if_pos, ite_not]
      · by_cases h3 : hlStrat3 doc = [] <;> simp only [h3, if_neg, if_pos, ite_not]
        · by_cases h4 : hlStrat4 doc = [] <;> simp only [h4, if_neg, if_pos, ite_not]
          · by_cases h5 : hlStrat5 doc = [] <;> simp [h5]
          · simp [h4]
        · simp [h3]
      · simp [h2]
    · simp [h1]
  · intro p hp
    rw [findEtfRows, hp]
  · intro hp ht
    rw [findEtfRows, hp]
    rw [if_pos ht]
    rfl
  · intro hp ht
    rw [findEtfRows, hp]
    simp only [ht, ite_not, if_pos, if_neg, firstNonempty]
    by_cases h3 : etfSel3 doc = [] <;> simp only [h3, ite_not, if_pos, if_neg]
    · by_cases h4 : etfSymbolRows doc = [] <;> simp [h4]
    · simp [h3]
  · intro p hp
    rw [findDerivativesRows, hp]
  · intro hp ht
    rw [findDerivativesRows, hp]
    rw [if_pos ht]
    rfl
  · intro hp ht
    rw [findDerivativesRows, hp]
    simp only [ht, ite_not, if_pos, if_neg, firstNonempty]
    by_cases h3 : dvSel3 doc = [] <;> simp only [h3, ite_not, if_pos, if_neg]
    · by_cases h4 : dvSymbolRows doc = [] <;> simp [h4]
    · simp [h3]

/-- C7, witness: the amended chain characterization applied at `c7doc`
(whose ETF panel exists) and at `emptyDoc` (no derivatives panel and no
keyword table). -/
theorem c7_strategy_chain_witness :
    findEtfRows c7doc = tbodyTrRows c7panel
  ∧ findDerivativesRows emptyDoc
      = firstNonempty [dvSel3 emptyDoc, dvSymbolRows emptyDoc] :=
  ⟨(c7_strategy_chain c7doc).2.1 c7panel (by decide),
   (c7_strategy_chain emptyDoc).2.2.2.2.2.2 (by decide) (by decide)⟩

/-! ## C1: retry with backoff -/

/-- Unfolding `_request_with_retry` one level on a 5xx response with
retries left: one GET, one backoff sleep of `backoff_factor * 2 ** attempt`
seconds, then the recursive call at `attempt + 1`. -/
theorem rwr_5xx_step (resp : ℕ → AttemptOutcome) (a c : ℕ)
    (h : resp a = .status c) (h5 : 500 ≤ c) (h6 : c < 600) (ha : a < maxRetries) :
    requestWithRetry resp a =
      ⟨(requestWithRetry resp (a + 1)).result,
       a :: (requestWithRetry resp (a + 1)).requests,
       backoffFactor * 2 ^ a :: (requestWithRetry resp (a + 1)).sleeps⟩ := by
  rw [requestWithRetry.eq_def, h]
  simp only
  rw [if_pos ⟨by omega, h6⟩, if_pos h5, if_pos ha]

/-- Unfolding `_request_with_retry` on a 5xx response with no retries
left: the retries-exhausted error, no further GET, no further sleep. -/
theorem rwr_5xx_exhausted (resp : ℕ → AttemptOutcome) (a c : ℕ)
    (h : resp a = .status c) (h5 : 500 ≤ c) (h6 : c < 600) (ha : ¬ a < maxRetries) :
    requestWithRetry resp a = ⟨.error .retriesExhausted, [a], []⟩ := by
  rw [requestWithRetry.eq_def, h]
  simp only
  rw [if_pos ⟨by omega, h6⟩, if_pos h5, if_neg ha]

/-- Unfolding `_request_with_retry` on a response `raise_for_status` lets
through: the body of that attempt is returned, with no further GET. -/
theorem rwr_ok (resp : ℕ → AttemptOutcome) (a c : ℕ)
    (h : resp a = .status c) (hc : c < 400 ∨ 600 ≤ c) :
    requestWithRetry resp a = ⟨.ok a, [a], []⟩ := by
  rw [requestWithRetry.eq_def, h]
  simp only
  rw [if_neg (by omega)]

/-- C1: a GET whose every attempt returns 5xx makes exactly
`max_retries + 1 = 4` attempts (indices 0-3), sleeping
`backoff_factor * 2 ** attempt` seconds between consecutive attempts, and
fails with the retries-exhausted error; and if the attempts before `k` are
5xx and attempt `k` returns 2xx, the call returns attempt `k`'s response
body after exactly `k + 1` attempts. -/
theorem c1_retry_schedule (resp : ℕ → AttemptOutcome) :
    ((∀ k, k ≤ maxRetries → ∃ c, resp k = .status c ∧ 500 ≤ c ∧ c < 600) →
      requestWithRetry resp 0 =
        ⟨.error .retriesExhausted, [0, 1, 2, 3],
         [backoffFactor * 2 ^ 0, backoffFactor * 2 ^ 1, backoffFactor * 2 ^ 2]⟩)
  ∧ (∀ k c, k ≤ maxRetries →
      (∀ j, j < k → ∃ c5, resp j = .status c5 ∧ 500 ≤ c5 ∧ c5 < 600) →
      resp k = .status c → 200 ≤ c → c < 300 →
      requestWithRetry resp 0 =
        ⟨.ok k, List.range (k + 1),
         (List.range k).map (fun a => backoffFactor * 2 ^ a)⟩) := by
  constructor
  · intro h
    obtain ⟨c0, e0, f0, g0⟩ := h 0 (by norm_num [maxRetries])
    obtain ⟨c1, e1, f1, g1⟩ := h 1 (by norm_num [maxRetries])
    obtain ⟨c2, e2, f2, g2⟩ := h 2 (by norm_num [maxRetries])
    obtain ⟨c3, e3, f3, g3⟩ := h 3 (by norm_num [maxRetries])
    rw [rwr_5xx_step resp 0 c0 e0 f0 g0 (by norm_num [maxRetries]),
        rwr_5xx_step resp 1 c1 e1 f1 g1 (by norm_num [maxRetries]),
        rwr_5xx_step resp 2 c2 e2 f2 g2 (by norm_num [maxRetries]),
        rwr_5xx_exhausted resp 3 c3 e3 f3 g3 (by norm_num [maxRetries])]
  · intro k c hk hprev hstat h2 h3
    have hk3 : k ≤ 3 := by simpa [maxRetries] using hk
    interval_cases k
    · rw [rwr_ok resp 0 c hstat (Or.inl (by omega))]
      rfl
    · obtain ⟨c0, e0, f0, g0⟩ := hprev 0 (by omega)
      rw [rwr_5xx_step resp 0 c0 e0 f0 g0 (by norm_num [maxRetries]),
          rwr_ok resp 1 c hstat (Or.inl (by omega))]
      rfl
    · obtain ⟨c0, e0, f0, g0⟩ := hprev 0 (by omega)
      obtain ⟨c1, e1, f1, g1⟩ := hprev 1 (by omega)
      rw [rwr_5xx_step resp 0 c0 e0 f0 g0 (by norm_num [maxRetries]),
          rwr_5xx_step resp 1 c1 e1 f1 g1 (by norm_num [maxRetries]),
          rwr_ok resp 2 c hstat (Or.inl (by omega))]
      rfl
    · obtain ⟨c0, e0, f0, g0⟩ := hprev 0 (by omega)
      obtain ⟨c1, e1, f1, g1⟩ := hprev 1 (by omega)
      obtain ⟨c2, e2, f2, g2⟩ := hprev 2 (by omega)
      rw [rwr_5xx_step resp 0 c0 e0 f0 g0 (by norm_num [maxRetries]),
          rwr_5xx_step resp 1 c1 e1 f1 g1 (by norm_num [maxRetries]),
          rwr_5xx_step resp 2 c2 e2 f2 g2 (by norm_num [maxRetries]),
          rwr_ok resp 3 c hstat (Or.inl (by omega))]
      rfl

/-- C1, witness: a server that always answers 503 exhausts the schedule
after 4 attempts; one that answers 503 then 200 succeeds on attempt 1. -/
theorem c1_retry_schedule_witness :
    requestWithRetry (fun _ => .status 503) 0 =
      ⟨.error .retriesExhausted, [0, 1, 2, 3],
       [backoffFactor * 2 ^ 0, backoffFactor * 2 ^ 1, backoffFactor * 2 ^ 2]⟩
  ∧ requestWithRetry (fun k => if k = 0 then .status 503 else .status 200) 0 =
      ⟨.ok 1, List.range 2, (List.range 1).map (fun a => backoffFactor * 2 ^ a)⟩ :=
  ⟨(c1_retry_schedule _).1 (fun k _ => ⟨503, rfl, by omega, by omega⟩),
   (c1_retry_schedule _).2 1 200 (by norm_num [maxRetries])
     (by intro j hj; interval_cases j; exact ⟨503, rfl, by omega, by omega⟩)
     rfl (by omega) (by omega)⟩

/-! ## C2: the robots.txt allow check -/

/-- C2: `is_allowed` returns `False` exactly when the path starts with some
disallowed prefix; the `allowed` entries are never consulted (two policies
with the same disallow set answer identically whatever their allow sets);
and a fetch to a path with a disallowed prefix fails with the
robots-blocked error with no GET issued to the path. -/
theorem c2_robots_allow :
    (∀ (r : RobotsTxt) (path : Str),
      robotsIsAllowed r path = false ↔ ∃ d ∈ r.disallowed, d <+: path)
  ∧ (∀ (r r' : RobotsTxt) (path : Str), r.disallowed = r'.disallowed →
      robotsIsAllowed r path = robotsIsAllowed r' path)
  ∧ (∀ (r : RobotsTxt) (path : Str) (resp : ℕ → AttemptOutcome),
      (∃ d ∈ r.disallowed, d <+: path) →
      scrapePipeline r path resp = (.error .robotsBlocked, [])) := by
  refine ⟨?_, ?_, ?_⟩
  · intro r path
    simp [robotsIsAllowed, List.any_eq_true, List.isPrefixOf_iff_prefix]
  · intro r r' path h
    simp [robotsIsAllowed, h]
  · intro r path resp h
    have hb : robotsIsAllowed r path = false := by
      simp only [robotsIsAllowed, Bool.not_eq_false', List.any_eq_true]
      obtain ⟨d, hd, hpre⟩ := h
      exact ⟨d, hd, List.isPrefixOf_iff_prefix.mpr hpre⟩
    rw [scrapePipeline, if_pos hb]

/-- C2, witness: a `Disallow: /private` policy blocks `/private/data`
before any request, whatever the allow list says. -/
theorem c2_robots_allow_witness :
    robotsIsAllowed ⟨[lit "/private"], [lit "/private"], none⟩ (lit "/private/data") = false
  ∧ scrapePipeline ⟨[lit "/private"], [lit "/private"], none⟩ (lit "/private/data")
      (fun _ => .status 200) = (.error .robotsBlocked, []) :=
  ⟨(c2_robots_allow.1 _ _).mpr
      ⟨lit "/private", by decide, List.isPrefixOf_iff_prefix.mp (by decide)⟩,
   c2_robots_allow.2.2 _ _ _
      ⟨lit "/private", by decide, List.isPrefixOf_iff_prefix.mp (by decide)⟩⟩

/-! ## C3: the per-host rate limiter -/

/-- C3, counterexample: the claim says the new timestamp is recorded
atomically with the wait decision, so two back-to-back fetches are ≥
`RATE_LIMIT_DELAY` apart. But the write happens only after the
`asyncio.sleep` suspension: two concurrent callers that both run their
check (reading the stale timestamp 0) before either records are both
released at time 5 — 0 seconds apart. -/
theorem c3_counterexample :
    (rlRun 1 1 0 [.checkA, .checkB, .wakeA, .wakeB]).reqA = some 5
  ∧ (rlRun 1 1 0 [.checkA, .checkB, .wakeA, .wakeB]).reqB = some 5
  ∧ ¬ (RATE_LIMIT_DELAY ≤ |(5 : ℚ) - 5|) := by
  refine ⟨?_, ?_, ?_⟩ <;> norm_num [rlRun, rlStep, waitWake, RATE_LIMIT_DELAY]

/-- C3 (amended): when the second caller's check runs only after the first
caller has recorded (sequential back-to-back fetches), the two requests are
at least `RATE_LIMIT_DELAY` seconds apart — the second caller waits out the
remaining interval. The check-then-record sequence is not atomic (the
record happens after the sleep, with no lock), so this guarantee does not
extend to callers whose checks interleave. -/
theorem c3_sequential_wait (l0 tA tB : ℚ) (_hseq : waitWake l0 tA ≤ tB) :
    ∃ rA rB,
      (rlRun tA tB l0 [.checkA, .wakeA, .checkB, .wakeB]).reqA = some rA
    ∧ (rlRun tA tB l0 [.checkA, .wakeA, .checkB, .wakeB]).reqB = some rB
    ∧ RATE_LIMIT_DELAY ≤ rB - rA := by
  refine ⟨waitWake l0 tA, waitWake (waitWake l0 tA) tB, ?_, ?_, ?_⟩
  · simp [rlRun, rlStep]
  · simp [rlRun, rlStep]
  · set y := waitWake l0 tA with hy
    rw [waitWake]
    split
    · linarith
    · linarith

/-- C3, witness: the sequential guarantee at `l0 = 0`, first call at time
1 (released at 5), second call at time 6. -/
theorem c3_sequential_wait_witness :
    ∃ rA rB,
      (rlRun 1 6 0 [.checkA, .wakeA, .checkB, .wakeB]).reqA = some rA
    ∧ (rlRun 1 6 0 [.checkA, .wakeA, .checkB, .wakeB]).reqB = some rB
    ∧ RATE_LIMIT_DELAY ≤ rB - rA :=
  c3_sequential_wait 0 1 6 (by norm_num [waitWake, RATE_LIMIT_DELAY])

/-! ## C4 and C10: change/percent-change consistency validation -/

/-- C4: with change, percent-change and previous-close all present (and
previous-close non-zero, percent-change within its field bounds), the
record is accepted iff `|pct_change − change/previous_close·100| ≤ 0.01`;
a violation makes `mkMarketInstrument` return an error, rejecting the
whole record. At the spec's example (change 0.25, previous_close 100), a
parsed pct_change of 0.30 is rejected and 0.25 is accepted. -/
theorem c4_change_consistency :
    (∀ (ch pc prev : ℚ), prev ≠ 0 → -100 ≤ pc → pc ≤ 100 →
      (isOkE (mkMarketInstrument (lit "GOLD") (lit "Gold") 100 (some ch) (some pc)
          .commodities (some prev)) = true
        ↔ |pc - ch / prev * 100| ≤ 1/100))
  ∧ isOkE (mkMarketInstrument (lit "GOLD") (lit "Gold") 100 (some (1/4)) (some (3/10))
      .commodities (some 100)) = false
  ∧ isOkE (mkMarketInstrument (lit "GOLD") (lit "Gold") 100 (some (1/4)) (some (1/4))
      .commodities (some 100)) = true := by
  have main : ∀ (ch pc prev : ℚ), prev ≠ 0 → -100 ≤ pc → pc ≤ 100 →
      (isOkE (mkMarketInstrument (lit "GOLD") (lit "Gold") 100 (some ch) (some pc)
          .commodities (some prev)) = true
        ↔ |pc - ch / prev * 100| ≤ 1/100) := by
    intro ch pc prev hprev hb1 hb2
    have hcc : changeConsistencyOk (some ch) (some pc) (some prev)
        = decide (|pc - ch / prev * 100| ≤ 1/100) := by
      simp [changeConsistencyOk, prevCloseTruthy, hprev]
    rw [mkMarketInstrument, if_neg (by decide), if_neg (by decide), if_neg (by decide),
        if_neg (by simp [pctBoundsOk, hb1, hb2]), hcc]
    by_cases hP : |pc - ch / prev * 100| ≤ 1/100
    · rw [if_neg (not_not_intro (decide_eq_true hP))]
      exact iff_of_true rfl hP
    · rw [if_pos (by rw [decide_eq_false hP]; simp)]
      exact iff_of_false (by simp [isOkE]) hP
  refine ⟨main, ?_, ?_⟩
  · have h := main (1/4) (3/10) 100 (by norm_num) (by norm_num) (by norm_num)
    have hno : ¬ (|(3 : ℚ)/10 - (1/4) / 100 * 100| ≤ 1/100) := by
      rw [show (3 : ℚ)/10 - (1/4) / 100 * 100 = 1/20 by ring,
          abs_of_nonneg (by norm_num)]
      norm_num
    by_cases hb : isOkE (mkMarketInstrument (lit "GOLD") (lit "Gold")
        100 (some (1/4)) (some (3/10)) .commodities (some 100)) = true
    · exact absurd (h.mp hb) hno
    · simpa using hb
  · exact (main (1/4) (1/4) 100 (by norm_num) (by norm_num) (by norm_num)).mpr
      (by rw [show (1 : ℚ)/4 - (1/4) / 100 * 100 = 0 by ring]; simp)

/-- C4, witness: the general equivalence applied at the spec's example
values (accepted side). -/
theorem c4_change_consistency_witness :
    isOkE (mkMarketInstrument (lit "GOLD") (lit "Gold") 100 (some (1/4)) (some (1/4))
      .commodities (some 100)) = true :=
  (c4_change_consistency.1 (1/4) (1/4) 100 (by norm_num) (by norm_num)
      (by norm_num)).mpr
    (by rw [show (1 : ℚ)/4 - (1/4) / 100 * 100 = 0 by ring]; simp)

/-- C10: when `previous_close` is absent or zero, the truthiness guard of
`validate_change_consistency` is false, so the consistency check (and its
division by `previous_close`) is skipped entirely and the record passes
the model validator whatever `change` and `pct_change` hold. -/
theorem c10_prev_close_guard (value ch pc : ℚ) (prev : Option ℚ)
    (hprev : prev = none ∨ prev = some 0) (hb1 : -100 ≤ pc) (hb2 : pc ≤ 100) :
    changeConsistencyOk (some ch) (some pc) prev = true
  ∧ isOkE (mkMarketInstrument (lit "GOLD") (lit "Gold") value (some ch) (some pc)
      .commodities prev) = true := by
  have hcc : changeConsistencyOk (some ch) (some pc) prev = true := by
    rcases hprev with h | h <;> subst h <;> simp [changeConsistencyOk, prevCloseTruthy]
  refine ⟨hcc, ?_⟩
  rw [mkMarketInstrument, if_neg (by decide), if_neg (by decide), if_neg (by decide),
      if_neg (by simp [pctBoundsOk, hb1, hb2]), if_neg (by simp [hcc])]
  rfl

/-- C10, witness: previous_close 0 with wildly inconsistent change 5 and
pct_change 90 is still accepted. -/
theorem c10_prev_close_guard_witness :
    changeConsistencyOk (some 5) (some 90) (some 0) = true
  ∧ isOkE (mkMarketInstrument (lit "GOLD") (lit "Gold") 100 (some 5) (some 90)
      .commodities (some 0)) = true :=
  c10_prev_close_guard 100 5 90 (some 0) (Or.inr rfl) (by norm_num) (by norm_num)

/-! ## C9: summary truncation and length bound -/

/-- A `NewsArticle` accepted by the pydantic validation carries exactly the
summary it was given, which passed the 2000-character bound. -/
theorem mkNewsArticle_ok_summary (urlOk : Str → Bool) (t u : Str)
    (s src cat snt : Option Str) (a : NewsArticle)
    (h : mkNewsArticle urlOk t s u src cat snt = .ok a) :
    a.summary = s ∧ optLenLe 2000 s = true := by
  rw [mkNewsArticle] at h
  repeat' split at h
  all_goals first
    | (injection h; done)
    | (injection h with h2; subst h2; exact ⟨rfl, by simp_all⟩)

/-- C9: every accepted `NewsArticle` has a summary within the 2000
character bound; the extraction cap `truncSummary` keeps every summary at
500 characters or fewer (hence within the bound, so truncation never
causes rejection); every article `_extract_article_from_element` yields
satisfies the bound; and a summary longer than 2000 characters comes out
truncated with a trailing `"..."`. -/
theorem c9_summary_truncation :
    (∀ (urlOk : Str → Bool) (t u : Str) (s src cat snt : Option Str) (a : NewsArticle),
        mkNewsArticle urlOk t s u src cat snt = .ok a →
        optLenLe 2000 a.summary = true)
  ∧ (∀ s : Str, (truncSummary s).length ≤ 500)
  ∧ (∀ (baseOf : Node → Option Str) (urlOk : Str → Bool) (element : Node)
        (a : NewsArticle), extractArticle baseOf urlOk element = some a →
        optLenLe 2000 a.summary = true)
  ∧ (∀ s : Str, 2000 < s.length →
        truncSummary s = s.take 497 ++ lit "..." ∧ lit "..." <:+ truncSummary s) := by
  have hellip : (lit "...").length = 3 := by decide
  have part1 : ∀ (urlOk : Str → Bool) (t u : Str) (s src cat snt : Option Str)
      (a : NewsArticle), mkNewsArticle urlOk t s u src cat snt = .ok a →
      optLenLe 2000 a.summary = true := by
    intro urlOk t u s src cat snt a h
    obtain ⟨h1, h2⟩ := mkNewsArticle_ok_summary urlOk t u s src cat snt a h
    rw [h1]
    exact h2
  refine ⟨part1, ?_, ?_, ?_⟩
  · intro s
    rw [truncSummary]
    split
    · rename_i h
      simp only [List.length_append, List.length_take, hellip]
      omega
    · rename_i h
      push_neg at h
      by_cases hs : s = []
      · simp [hs]
      · exact h hs
  · intro baseOf urlOk element a h
    rw [extractArticle] at h
    split at h
    · exact absurd h (by simp)
    · split at h
      · exact absurd h (by simp)
      · split at h
        · exact absurd h (by simp)
        · split at h
          · rename_i b hb
            have hba : b = a := by
              injection h
            subst hba
            exact part1 _ _ _ _ _ _ _ _ hb
          · exact absurd h (by simp)
  · intro s hs
    have hcond : s ≠ [] ∧ 500 < s.length := by
      constructor
      · intro he
        rw [he] at hs
        simp at hs
      · omega
    rw [truncSummary, if_pos hcond]
    exact ⟨rfl, List.suffix_append _ _⟩

/-- C9, witness: the bound at a concrete accepted article, the truncation
shape at a 2001-character summary, and the extractor at `c9elem`. -/
theorem c9_summary_truncation_witness :
    optLenLe 2000 (NewsArticle.mk (lit "Title") (some (lit "abc"))
        (lit "http://example.com/a") none none none).summary = true
  ∧ truncSummary (List.replicate 2001 'a')
      = (List.replicate 2001 'a').take 497 ++ lit "..."
  ∧ optLenLe 2000 (NewsArticle.mk (lit "Markets rally on rate cut hopes") none
      (lit "http://example.com/news/1") none none none).summary = true :=
  ⟨c9_summary_truncation.1 (fun _ => true) (lit "Title") (lit "http://example.com/a")
      (some (lit "abc")) none none none
      ⟨lit "Title", some (lit "abc"), lit "http://example.com/a", none, none, none⟩ rfl,
   (c9_summary_truncation.2.2.2 (List.replicate 2001 'a')
      (by rw [List.length_replicate]; omega)).1,
   c9_summary_truncation.2.2.1 (fun _ => none) (fun _ => true) c9elem
      ⟨lit "Markets rally on rate cut hopes", none, lit "http://example.com/news/1",
       none, none, none⟩ (by decide)⟩

end TES
